import Mathlib

/-!
Shallow embedding of `src/library.py`: a book-catalog manager with a
`Book` record class and a `Library` class holding an in-memory list of
books synchronized with a JSON file.

Modelling conventions:
* Python `int` is `Int`, Python `str` is `String`.
* JSON values appearing in book dictionaries are modelled by `PyVal`
  (Python is dynamically typed and `Book.from_dict` performs no type
  checks, so the dictionary layer must carry dynamic values).
* The JSON file is modelled by its parsed content, `Option (List PyDict)`,
  with `none` meaning the file does not exist.
* `str.lower()` is modelled by `String.toLower` (ASCII case folding); the
  case-insensitivity statements are relative to this folding.
* A function that can raise an exception is modelled with `Option`.
-/

/-- A dynamically typed Python value as it occurs in book dictionaries. -/
inductive PyVal where
  | int (n : Int)
  | str (s : String)
deriving DecidableEq, Repr

/-- A Python dictionary with string keys, as a key-value list. -/
abbrev PyDict := List (String × PyVal)

/-- Dictionary lookup `data[k]`; `none` models a raised `KeyError`. -/
def PyDict.get (d : PyDict) (k : String) : Option PyVal :=
  (d.find? (fun p => p.1 == k)).map (fun p => p.2)

/-- The `Book` class (`src/library.py` lines 6-29): id, title, author,
year and status. `"в наличии"` is the code's literal for the default
"available" status and `"выдана"` for "checked out". -/
structure Book where
  book_id : Int
  title : String
  author : String
  year : Int
  status : String
deriving DecidableEq, Repr

/-- A book whose fields hold arbitrary dynamic values, as produced by
`Book.from_dict` (the Python constructor accepts any argument types). -/
structure DynBook where
  book_id : PyVal
  title : PyVal
  author : PyVal
  year : PyVal
  status : PyVal
deriving DecidableEq, Repr

/-- `Book.to_dict` (lines 31-44). -/
def Book.to_dict (b : Book) : PyDict :=
  [("id", PyVal.int b.book_id), ("title", PyVal.str b.title),
   ("author", PyVal.str b.author), ("year", PyVal.int b.year),
   ("status", PyVal.str b.status)]

/-- `Book.from_dict` (lines 46-63): reads the five keys; a missing key
raises `KeyError` (`none`); values are passed through unchecked. -/
def Book.from_dict (data : PyDict) : Option DynBook :=
  match PyDict.get data "id", PyDict.get data "title",
        PyDict.get data "author", PyDict.get data "year",
        PyDict.get data "status" with
  | some i, some t, some a, some y, some s => some ⟨i, t, a, y, s⟩
  | _, _, _, _, _ => none

/-- The `Library` state: the in-memory list and the persisted file
content (`none` = the file does not exist). -/
structure Library where
  books : List Book
  file : Option (List PyDict)
deriving DecidableEq, Repr

/-- `Library.save_books` (lines 88-93): overwrite the file with the
serialized in-memory list. -/
def Library.save_books (l : Library) : Library :=
  { l with file := some (l.books.map Book.to_dict) }

/-- The list comprehension of `load_books` (line 86): parse every entry,
propagating a `KeyError` raised by `Book.from_dict`. -/
def parse_books : List PyDict → Option (List DynBook)
  | [] => some []
  | d :: rest =>
    match Book.from_dict d, parse_books rest with
    | some b, some bs => some (b :: bs)
    | _, _ => none

/-- `Library.__init__` composed with `load_books` (lines 74-86), at the
file-content level: if the target does not exist the catalog stays empty
(this is not an error); otherwise each persisted entry is parsed. -/
def init_books : Option (List PyDict) → Option (List DynBook)
  | none => some []
  | some data => parse_books data

/-- The value returned by `Library.add_book`. The Python function is
annotated `-> None` and has no return statement, so it returns `None`
(`pyNone`); the other constructors are the returns the specification
contemplates (the created record, or its id). -/
inductive AddRet where
  | pyNone
  | book (b : Book)
  | bookId (n : Int)
deriving DecidableEq, Repr

/-- `Library.add_book` (lines 95-107): `book_id = len(self.books) + 1`,
default status, append, save; returns `None`. -/
def Library.add_book (l : Library) (title author : String) (year : Int) :
    Library × AddRet :=
  let new_book : Book :=
    { book_id := (l.books.length : Int) + 1, title := title,
      author := author, year := year, status := "в наличии" }
  (Library.save_books { l with books := l.books ++ [new_book] }, AddRet.pyNone)

/-- `Library.delete_book` (lines 109-126). The Python early-returns the
error message when no book matches; otherwise it keeps the non-matching
books, saves, and returns the success message. The `try/except` wrapper
is dead in this pure model since no exception can arise. -/
def Library.delete_book (l : Library) (book_id : Int) : Library × String :=
  if l.books.any (fun b => b.book_id == book_id) then
    (Library.save_books
       { l with books := l.books.filter (fun b => !(b.book_id == book_id)) },
     "Книга с ID " ++ toString book_id ++ " успешно удалена.")
  else
    (l, "Ошибка: Книга с ID " ++ toString book_id ++ " не найдена.")

/-- The `for`-loop of `change_book_status` (lines 173-177): update the
first book carrying the given id and report whether one was found. -/
def statusLoop (bs : List Book) (book_id : Int) (new_status : String) :
    List Book × Bool :=
  match bs with
  | [] => ([], false)
  | b :: rest =>
    if b.book_id = book_id then ({ b with status := new_status } :: rest, true)
    else
      let r := statusLoop rest book_id new_status
      (b :: r.1, r.2)

/-- `Library.change_book_status` (lines 165-177): if a book with the id
exists, its status is updated and the library saved (then `break`);
otherwise nothing happens at all. -/
def Library.change_book_status (l : Library) (book_id : Int)
    (new_status : String) : Library :=
  let r := statusLoop l.books book_id new_status
  if r.2 then Library.save_books { l with books := r.1 } else l

/-- Python truthiness of an optional string (`if title:`): `None` and the
empty string are falsy. -/
def pyTruthyS : Option String → Bool
  | none => false
  | some s => !(s == "")

/-- Python truthiness of an optional integer (`if year:`): `None` and `0`
are falsy. -/
def pyTruthyI : Option Int → Bool
  | none => false
  | some n => !(n == 0)

/-- Whether `needle` occurs at the very start of `hay`. -/
def startsWithL [BEq α] : List α → List α → Bool
  | [], _ => true
  | _ :: _, [] => false
  | a :: as, b :: bs => a == b && startsWithL as bs

/-- Whether `needle` occurs contiguously somewhere inside `hay`. -/
def occursIn [BEq α] (needle : List α) : List α → Bool
  | [] => needle.isEmpty
  | b :: rest => startsWithL needle (b :: rest) || occursIn needle rest

/-- Python `needle in hay` on strings: substring containment. -/
def pyInStr (needle hay : String) : Bool :=
  occursIn needle.data hay.data

/-- `title.lower() in book.title.lower()`: case-insensitive substring. -/
def containsCI (needle hay : String) : Bool :=
  pyInStr needle.toLower hay.toLower

/-- `Library.search_books` (lines 128-154): three successive
truthiness-guarded filters over the current book list. -/
def Library.search_books (l : Library) (title author : Option String)
    (year : Option Int) : List Book :=
  let r0 := l.books
  let r1 := if pyTruthyS title then
      r0.filter (fun b => containsCI (title.getD "") b.title) else r0
  let r2 := if pyTruthyS author then
      r1.filter (fun b => containsCI (author.getD "") b.author) else r1
  let r3 := if pyTruthyI year then
      r2.filter (fun b => b.year == year.getD 0) else r2
  r3

/-- The search semantics exactly as the specification words it: the
subsequence of records satisfying all provided non-empty filters,
title/author by case-insensitive substring, year by exact equality. -/
def searchRecordsClaim (books : List Book) (title author : Option String)
    (year : Option Int) : List Book :=
  books.filter (fun b =>
    (match title with
     | none => true
     | some t => if t = "" then true else containsCI t b.title)
    && (match author with
        | none => true
        | some a => if a = "" then true else containsCI a b.author)
    && (match year with
        | none => true
        | some y => b.year == y))

/-- `searchRecordsClaim` amended: a provided year equal to 0 imposes no
constraint (Python truthiness), everything else unchanged. -/
def searchRecordsAmended (books : List Book) (title author : Option String)
    (year : Option Int) : List Book :=
  books.filter (fun b =>
    (match title with
     | none => true
     | some t => if t = "" then true else containsCI t b.title)
    && (match author with
        | none => true
        | some a => if a = "" then true else containsCI a b.author)
    && (match year with
        | none => true
        | some y => if y = 0 then true else b.year == y))

/-- A mutating catalog operation, for stating reachability. -/
inductive Op where
  | add (title author : String) (year : Int)
  | delete (book_id : Int)
  | changeStatus (book_id : Int) (new_status : String)
deriving DecidableEq, Repr

/-- Apply one operation to a library (return values discarded). -/
def applyOp (l : Library) : Op → Library
  | Op.add t a y => (Library.add_book l t a y).1
  | Op.delete i => (Library.delete_book l i).1
  | Op.changeStatus i st => Library.change_book_status l i st

/-- Run a sequence of operations from a given state. -/
def runOps (l : Library) (ops : List Op) : Library :=
  ops.foldl applyOp l

/-- The empty catalog: a fresh `Library` over a non-existent file. -/
def emptyLib : Library := { books := [], file := none }

/-- The ids of the books currently in the library, in order. -/
def idsOf (l : Library) : List Int :=
  l.books.map (fun b => b.book_id)

/-- The ids `1, 2, …, n` that a delete-free history produces. -/
def canonIds (n : Nat) : List Int :=
  (List.range n).map (fun i : Nat => (i : Int) + 1)

/-- Sample book for concrete instantiations. -/
def bookA : Book :=
  { book_id := 1, title := "t", author := "a", year := 2000,
    status := "в наличии" }

/-- One-book library over a non-existent file. -/
def lib1 : Library := { books := [bookA], file := none }

/-- Operation sequence whose delete/add cycle duplicates an id. -/
def opsDup : List Op :=
  [Op.add "a" "a" 1, Op.add "b" "b" 2, Op.add "c" "c" 3, Op.delete 1,
   Op.add "d" "d" 4]

/-- A dictionary with all five keys but non-integer id and year values. -/
def badDict : PyDict :=
  [("id", PyVal.str "x"), ("title", PyVal.str "t"),
   ("author", PyVal.str "a"), ("year", PyVal.str "y"),
   ("status", PyVal.str "s")]

/-- Serializing a book and parsing the result succeeds and wraps each
field in the corresponding dynamic value. -/
theorem from_dict_to_dict (b : Book) :
    Book.from_dict (Book.to_dict b)
      = some { book_id := PyVal.int b.book_id, title := PyVal.str b.title,
               author := PyVal.str b.author, year := PyVal.int b.year,
               status := PyVal.str b.status } := rfl

/-- C9: initializing the catalog over a non-existent persistence target
does not signal an error and produces an empty in-memory sequence. -/
theorem init_books_no_file : init_books none = some [] := rfl

/-- C10: a search whose year filter is the provided value 0 applies no
year constraint, returning exactly what the call with the year filter
omitted returns. -/
theorem search_books_year_zero (l : Library) (title author : Option String) :
    Library.search_books l title author (some 0)
      = Library.search_books l title author none := rfl

/-- C2: for every catalog state, saving and then loading afresh from the
same target succeeds and reproduces the same records in the same order,
each field wrapped in its dynamic value. -/
theorem save_load_roundtrip (l : Library) :
    init_books ((Library.save_books l).file)
      = some (l.books.map (fun b =>
          ({ book_id := PyVal.int b.book_id, title := PyVal.str b.title,
             author := PyVal.str b.author, year := PyVal.int b.year,
             status := PyVal.str b.status } : DynBook))) := by
  show parse_books (l.books.map Book.to_dict) = _
  induction l.books with
  | nil => rfl
  | cons b bs ih => simp [parse_books, from_dict_to_dict, ih]

/-- C3 counterexample: `add_book` returns `None`, not the created record
and not its id. -/
theorem add_book_return_counterexample :
    (Library.add_book emptyLib "t" "a" 2000).2 = AddRet.pyNone
    ∧ (Library.add_book emptyLib "t" "a" 2000).2
        ≠ AddRet.book { book_id := 1, title := "t", author := "a",
                        year := 2000, status := "в наличии" }
    ∧ (Library.add_book emptyLib "t" "a" 2000).2 ≠ AddRet.bookId 1 := by
  refine ⟨rfl, ?_, ?_⟩ <;> decide

/-- C3 amended: `add_book` appends exactly one record at the end of the
sequence, with id `current_count + 1` and the default "available"
status, saves the new sequence to the file, and returns `None` (rather
than the created record or its id). -/
theorem add_book_spec (l : Library) (title author : String) (year : Int) :
    (Library.add_book l title author year).1.books
      = l.books ++ [{ book_id := (l.books.length : Int) + 1, title := title,
                      author := author, year := year, status := "в наличии" }]
    ∧ (Library.add_book l title author year).1.file
        = some ((Library.add_book l title author year).1.books.map Book.to_dict)
    ∧ (Library.add_book l title author year).2 = AddRet.pyNone :=
  ⟨rfl, rfl, rfl⟩

/-- C8 counterexample: a mapping with all five keys present but a
non-integer id and year is deserialized successfully, while the claim
requires a `MalformedRecord` failure. -/
theorem from_dict_counterexample :
    Book.from_dict badDict
      = some { book_id := PyVal.str "x", title := PyVal.str "t",
               author := PyVal.str "a", year := PyVal.str "y",
               status := PyVal.str "s" }
    ∧ Book.from_dict badDict ≠ none :=
  ⟨rfl, by decide⟩

/-- C8 amended: `from_dict` succeeds exactly when all five required keys
are present, regardless of the types of their values (no type checking),
and every field of the result is taken verbatim from the mapping (no
defaulting); it fails (`KeyError`) precisely when some key is absent. -/
theorem from_dict_spec (d : PyDict) :
    ((Book.from_dict d).isSome
        ↔ ((PyDict.get d "id").isSome ∧ (PyDict.get d "title").isSome
            ∧ (PyDict.get d "author").isSome ∧ (PyDict.get d "year").isSome
            ∧ (PyDict.get d "status").isSome))
    ∧ (∀ b : DynBook, Book.from_dict d = some b →
        PyDict.get d "id" = some b.book_id
        ∧ PyDict.get d "title" = some b.title
        ∧ PyDict.get d "author" = some b.author
        ∧ PyDict.get d "year" = some b.year
        ∧ PyDict.get d "status" = some b.status) := by
  unfold Book.from_dict
  cases hi : PyDict.get d "id" <;> cases ht : PyDict.get d "title" <;>
    cases ha : PyDict.get d "author" <;> cases hy : PyDict.get d "year" <;>
    cases hs : PyDict.get d "status" <;> simp_all

/-- C8 witness: the amended statement applied to a concrete well-formed
mapping. -/
theorem from_dict_spec_witness :
    PyDict.get (Book.to_dict bookA) "id" = some (PyVal.int 1)
    ∧ PyDict.get (Book.to_dict bookA) "title" = some (PyVal.str "t")
    ∧ PyDict.get (Book.to_dict bookA) "author" = some (PyVal.str "a")
    ∧ PyDict.get (Book.to_dict bookA) "year" = some (PyVal.int 2000)
    ∧ PyDict.get (Book.to_dict bookA) "status" = some (PyVal.str "в наличии") :=
  (from_dict_spec (Book.to_dict bookA)).2
    { book_id := PyVal.int 1, title := PyVal.str "t",
      author := PyVal.str "a", year := PyVal.int 2000,
      status := PyVal.str "в наличии" } (by decide)

/-- C7: deleting an id absent from the catalog leaves the in-memory
sequence and the persisted file unchanged (no save happens) and reports
not-found as an ordinary returned message, not an exception. -/
theorem delete_book_not_found (l : Library) (book_id : Int)
    (h : ∀ b ∈ l.books, b.book_id ≠ book_id) :
    Library.delete_book l book_id
      = (l, "Ошибка: Книга с ID " ++ toString book_id ++ " не найдена.") := by
  have hany : l.books.any (fun b => b.book_id == book_id) = false := by
    rw [List.any_eq_false]
    intro b hb
    simpa using h b hb
  unfold Library.delete_book
  simp [hany]

/-- C7 witness: deleting id 999 from the empty catalog. -/
theorem delete_book_not_found_witness :
    Library.delete_book emptyLib 999
      = (emptyLib, "Ошибка: Книга с ID " ++ toString (999 : Int) ++ " не найдена.") :=
  delete_book_not_found emptyLib 999 (by decide)

/-- A list containing exactly one element satisfying `p`: filtering the
complement equals erasing the first match, some element matches, and the
filtered list is one element shorter. -/
theorem countP_one_split {α : Type} (p : α → Bool) :
    ∀ l : List α, l.countP p = 1 →
      l.filter (fun a => !(p a)) = l.eraseP p
      ∧ l.any p = true
      ∧ (l.filter (fun a => !(p a))).length + 1 = l.length := by
  intro l
  induction l with
  | nil => intro h; simp [List.countP_nil] at h
  | cons a t ih =>
    intro h
    rw [List.countP_cons] at h
    by_cases hpa : p a = true
    · simp [hpa] at h
      have hfilter : t.filter (fun x => !(p x)) = t := by
        rw [List.filter_eq_self]
        intro x hx
        simp [h x hx]
      refine ⟨?_, ?_, ?_⟩
      · rw [List.filter_cons, List.eraseP_cons, hpa]
        simp [hfilter]
      · simp [List.any_cons, hpa]
      · simp [List.filter_cons, hpa, hfilter]
    · have hpa2 : p a = false := by simpa using hpa
      have ht : t.countP p = 1 := by simp [hpa2] at h; omega
      obtain ⟨h1, h2, h3⟩ := ih ht
      refine ⟨?_, ?_, ?_⟩
      · rw [List.filter_cons, List.eraseP_cons, hpa2]
        simp [hpa2, h1]
      · simp [List.any_cons, hpa2, h2]
      · simp [List.filter_cons, hpa2]
        omega

/-- C4 counterexample: in the reachable state after `opsDup` (three adds,
delete id 1, one add) two books share id 3; deleting id 3 then removes
two entries (length 3 to 1), not exactly one. -/
theorem delete_book_counterexample :
    (runOps emptyLib opsDup).books.length = 3
    ∧ (runOps emptyLib opsDup).books.any (fun b => b.book_id == 3) = true
    ∧ (Library.delete_book (runOps emptyLib opsDup) 3).1.books.length = 1 := by
  refine ⟨by decide, by decide, by decide⟩

/-- C4 amended: on any state containing the given id, DeleteRecord
removes every entry carrying that id and keeps exactly the others (in
order), so no record with the id remains; it persists the reduced
sequence via Save and returns the deleted message. When exactly one
record carries the id (in particular whenever ids are pairwise
distinct), it removes the single matching entry and the length
decreases by exactly one. -/
theorem delete_book_present (l : Library) (book_id : Int)
    (h : ∃ b ∈ l.books, b.book_id = book_id) :
    (Library.delete_book l book_id).1.books
        = l.books.filter (fun b => !(b.book_id == book_id))
    ∧ (∀ b ∈ (Library.delete_book l book_id).1.books, b.book_id ≠ book_id)
    ∧ (Library.delete_book l book_id).1.file
        = some ((Library.delete_book l book_id).1.books.map Book.to_dict)
    ∧ (Library.delete_book l book_id).2
        = "Книга с ID " ++ toString book_id ++ " успешно удалена."
    ∧ (l.books.countP (fun b => b.book_id == book_id) = 1 →
        (Library.delete_book l book_id).1.books
            = l.books.eraseP (fun b => b.book_id == book_id)
        ∧ (Library.delete_book l book_id).1.books.length + 1
            = l.books.length) := by
  have hany : l.books.any (fun b => b.book_id == book_id) = true := by
    rw [List.any_eq_true]
    obtain ⟨b, hb, hbid⟩ := h
    exact ⟨b, hb, by simpa using hbid⟩
  have hbooks : (Library.delete_book l book_id).1.books
      = l.books.filter (fun b => !(b.book_id == book_id)) := by
    unfold Library.delete_book
    simp [hany, Library.save_books]
  have hfile : (Library.delete_book l book_id).1.file
      = some ((Library.delete_book l book_id).1.books.map Book.to_dict) := by
    unfold Library.delete_book
    simp [hany, Library.save_books]
  have hmsg : (Library.delete_book l book_id).2
      = "Книга с ID " ++ toString book_id ++ " успешно удалена." := by
    unfold Library.delete_book
    simp [hany]
  refine ⟨hbooks, ?_, hfile, hmsg, ?_⟩
  · intro b hb
    rw [hbooks] at hb
    have hmemb := List.of_mem_filter hb
    simpa using hmemb
  · intro hcount
    obtain ⟨he, _, hlen⟩ :=
      countP_one_split (fun b => b.book_id == book_id) l.books hcount
    refine ⟨hbooks.trans he, ?_⟩
    rw [hbooks]
    exact hlen

/-- C4 witness: the amended statement on a one-book library, discharging
both the presence hypothesis and the uniqueness hypothesis of the
exactly-one clause. -/
theorem delete_book_present_witness :
    (∃ b ∈ lib1.books, b.book_id = 1)
    ∧ (∀ b ∈ (Library.delete_book lib1 1).1.books, b.book_id ≠ 1)
    ∧ (Library.delete_book lib1 1).2
        = "Книга с ID " ++ toString (1 : Int) ++ " успешно удалена."
    ∧ lib1.books.countP (fun b => b.book_id == 1) = 1
    ∧ (Library.delete_book lib1 1).1.books.length + 1 = lib1.books.length :=
  ⟨by decide,
   (delete_book_present lib1 1 (by decide)).2.1,
   (delete_book_present lib1 1 (by decide)).2.2.2.1,
   by decide,
   ((delete_book_present lib1 1 (by decide)).2.2.2.2 (by decide)).2⟩

/-- The status loop never changes the number of books. -/
theorem statusLoop_length (book_id : Int) (new_status : String) :
    ∀ bs : List Book, (statusLoop bs book_id new_status).1.length = bs.length := by
  intro bs
  induction bs with
  | nil => rfl
  | cons b rest ih =>
    by_cases hb : b.book_id = book_id <;> simp [statusLoop, hb, ih]

/-- If the status loop finds no match, it leaves the list unchanged. -/
theorem statusLoop_not_found (book_id : Int) (new_status : String) :
    ∀ bs : List Book, (statusLoop bs book_id new_status).2 = false →
      (statusLoop bs book_id new_status).1 = bs := by
  intro bs
  induction bs with
  | nil => intro; rfl
  | cons b rest ih =>
    intro hfound
    by_cases hb : b.book_id = book_id
    · simp [statusLoop, hb] at hfound
    · simp [statusLoop, hb] at hfound ⊢
      exact ih hfound

/-- The status loop reports a match exactly when some book carries the
given id. -/
theorem statusLoop_found_iff (book_id : Int) (new_status : String) :
    ∀ bs : List Book, (statusLoop bs book_id new_status).2 = true
      ↔ ∃ b ∈ bs, b.book_id = book_id := by
  intro bs
  induction bs with
  | nil => simp [statusLoop]
  | cons b rest ih =>
    by_cases hb : b.book_id = book_id <;> simp [statusLoop, hb, ih]

/-- If the status loop finds a match, the result is the input list with
exactly the first matching position updated, and only in its status. -/
theorem statusLoop_found_set (book_id : Int) (new_status : String) :
    ∀ bs : List Book, (statusLoop bs book_id new_status).2 = true →
      ∃ i, ∃ hi : i < bs.length,
        (bs.get ⟨i, hi⟩).book_id = book_id
        ∧ (statusLoop bs book_id new_status).1
            = bs.set i { bs.get ⟨i, hi⟩ with status := new_status } := by
  intro bs
  induction bs with
  | nil => intro hfound; simp [statusLoop] at hfound
  | cons b rest ih =>
    intro hfound
    by_cases hb : b.book_id = book_id
    · exact ⟨0, Nat.succ_pos _, hb, by simp [statusLoop, hb]⟩
    · have hf : (statusLoop rest book_id new_status).2 = true := by
        simpa [statusLoop, hb] using hfound
      obtain ⟨i, hi, h1, h2⟩ := ih hf
      refine ⟨i + 1, Nat.succ_lt_succ hi, h1, ?_⟩
      simp [statusLoop, hb]
      exact h2

/-- C6: ChangeStatus keeps the length; on a present id it rewrites
exactly one position (the first one carrying the id), replacing only its
status field and leaving every other record and field untouched, and
saves the updated sequence; on an absent id the library (memory and
file) is left entirely unchanged, with no save. -/
theorem change_book_status_spec (l : Library) (book_id : Int)
    (new_status : String) :
    (Library.change_book_status l book_id new_status).books.length
        = l.books.length
    ∧ ((∃ b ∈ l.books, b.book_id = book_id) →
        ∃ i, ∃ hi : i < l.books.length,
          (l.books.get ⟨i, hi⟩).book_id = book_id
          ∧ (Library.change_book_status l book_id new_status).books
              = l.books.set i
                  { l.books.get ⟨i, hi⟩ with status := new_status }
          ∧ (Library.change_book_status l book_id new_status).file
              = some ((Library.change_book_status l book_id
                  new_status).books.map Book.to_dict))
    ∧ ((∀ b ∈ l.books, b.book_id ≠ book_id) →
        Library.change_book_status l book_id new_status = l) := by
  by_cases hf : (statusLoop l.books book_id new_status).2 = true
  · have hch : Library.change_book_status l book_id new_status
        = Library.save_books
            { l with books := (statusLoop l.books book_id new_status).1 } := by
      unfold Library.change_book_status
      simp [hf]
    obtain ⟨i, hi, h1, h2⟩ := statusLoop_found_set book_id new_status l.books hf
    refine ⟨?_, ?_, ?_⟩
    · rw [hch]
      show (statusLoop l.books book_id new_status).1.length = _
      exact statusLoop_length book_id new_status l.books
    · intro _
      refine ⟨i, hi, h1, ?_, ?_⟩
      · rw [hch]
        exact h2
      · rw [hch]
        rfl
    · intro habs
      obtain ⟨b, hb, hbid⟩ := (statusLoop_found_iff book_id new_status l.books).mp hf
      exact absurd hbid (habs b hb)
  · have hf2 : (statusLoop l.books book_id new_status).2 = false := by
      simpa using hf
    have hid : Library.change_book_status l book_id new_status = l := by
      unfold Library.change_book_status
      rw [if_neg hf]
    refine ⟨by rw [hid], ?_, fun _ => hid⟩
    intro hex
    exact absurd ((statusLoop_found_iff book_id new_status l.books).mpr hex) hf

/-- C6 witness: the frame statement instantiated at a present id and at
an absent id on the one-book library. -/
theorem change_book_status_spec_witness :
    ((∃ b ∈ lib1.books, b.book_id = 1)
      ∧ (Library.change_book_status lib1 1 "выдана").books.length
          = lib1.books.length)
    ∧ ((∀ b ∈ lib1.books, b.book_id ≠ 5)
      ∧ Library.change_book_status lib1 5 "выдана" = lib1) :=
  ⟨⟨by decide, (change_book_status_spec lib1 1 "выдана").1⟩,
   ⟨by decide, (change_book_status_spec lib1 5 "выдана").2.2 (by decide)⟩⟩

/-- Rewriting a truthiness-guarded filter as an unconditional filter. -/
theorem ite_filter_eq {α : Type} (c : Bool) (l : List α) (p : α → Bool) :
    (if c = true then l.filter p else l) = l.filter (fun x => !c || p x) := by
  cases c <;> simp

/-- A guarded title/author condition coincides with the match form used
by the specification-side search definitions. -/
theorem strGuard_eq (o : Option String) (s : String) :
    (!(pyTruthyS o) || containsCI (o.getD "") s)
      = (match o with
         | none => true
         | some t => if t = "" then true else containsCI t s) := by
  rcases o with _ | t
  · rfl
  · by_cases ht : t = "" <;> simp [pyTruthyS, ht]

/-- A guarded year condition coincides with the match form used by the
amended specification-side search definition. -/
theorem intGuard_eq (o : Option Int) (n : Int) :
    (!(pyTruthyI o) || (n == o.getD 0))
      = (match o with
         | none => true
         | some y => if y = 0 then true else n == y) := by
  rcases o with _ | y
  · rfl
  · by_cases hy : y = 0 <;> simp [pyTruthyI, hy]

/-- C5 counterexample: with the provided year filter 0, the code returns
the whole sequence (a book of year 2000 included), while the claim's
exact-equality semantics returns the empty sequence. -/
theorem search_books_counterexample :
    Library.search_books lib1 none none (some 0) = [bookA]
    ∧ searchRecordsClaim lib1.books none none (some 0) = []
    ∧ Library.search_books lib1 none none (some 0)
        ≠ searchRecordsClaim lib1.books none none (some 0) := by
  refine ⟨by decide, by decide, by decide⟩

/-- C5 amended: SearchRecords returns exactly the subsequence (in
catalog order) of current records satisfying all provided non-empty
filters simultaneously — title and author by case-insensitive substring,
year by exact equality when the provided year is non-zero, while a
provided year of 0 imposes no constraint (like an omitted filter); a
call with no filters returns the entire sequence and an empty result is
a value, never an error. -/
theorem search_books_eq_amended (l : Library) (title author : Option String)
    (year : Option Int) :
    Library.search_books l title author year
      = searchRecordsAmended l.books title author year := by
  simp only [Library.search_books]
  rw [ite_filter_eq, ite_filter_eq, ite_filter_eq, List.filter_filter,
    List.filter_filter]
  unfold searchRecordsAmended
  apply List.filter_congr
  intro b _
  rw [strGuard_eq, strGuard_eq, intGuard_eq]
  generalize (match title with
    | none => true
    | some t => if t = "" then true else containsCI t b.title) = m1
  generalize (match author with
    | none => true
    | some a => if a = "" then true else containsCI a b.author) = m2
  generalize (match year with
    | none => true
    | some y => if y = 0 then true else b.year == y) = m3
  cases m1 <;> cases m2 <;> cases m3 <;> rfl

/-- Adding a book appends exactly the id `count + 1` to the id list. -/
theorem idsOf_add (l : Library) (t a : String) (y : Int) :
    idsOf (Library.add_book l t a y).1
      = idsOf l ++ [(l.books.length : Int) + 1] := by
  simp [idsOf, Library.add_book, Library.save_books]

/-- The status loop preserves the ids of the books. -/
theorem statusLoop_map_id (book_id : Int) (new_status : String) :
    ∀ bs : List Book,
      (statusLoop bs book_id new_status).1.map (fun b => b.book_id)
        = bs.map (fun b => b.book_id) := by
  intro bs
  induction bs with
  | nil => rfl
  | cons b rest ih =>
    by_cases hb : b.book_id = book_id <;> simp [statusLoop, hb, ih]

/-- Changing a status preserves the ids of the books. -/
theorem idsOf_change (l : Library) (book_id : Int) (new_status : String) :
    idsOf (Library.change_book_status l book_id new_status) = idsOf l := by
  unfold Library.change_book_status idsOf
  by_cases hf : (statusLoop l.books book_id new_status).2 = true
  · simp only [hf, if_true, Library.save_books]
    exact statusLoop_map_id book_id new_status l.books
  · rw [if_neg hf]

/-- Unfolding one step of the canonical id sequence. -/
theorem canonIds_succ (n : Nat) :
    canonIds (n + 1) = canonIds n ++ [(n : Int) + 1] := by
  simp [canonIds, List.range_succ]

/-- Along any delete-free history the id list stays canonical:
`[1, 2, …, n]` for the current size `n`. -/
theorem runOps_canon (ops : List Op) :
    (∀ i, Op.delete i ∉ ops) →
    ∀ l : Library, idsOf l = canonIds l.books.length →
      idsOf (runOps l ops) = canonIds (runOps l ops).books.length := by
  induction ops with
  | nil => intro _ l hl; exact hl
  | cons op rest ih =>
    intro h l hl
    have hrest : ∀ i, Op.delete i ∉ rest := by
      intro i hi
      exact h i (List.mem_cons_of_mem _ hi)
    have hstep : idsOf (applyOp l op) = canonIds (applyOp l op).books.length := by
      cases op with
      | add t a y =>
        have hid : idsOf (applyOp l (Op.add t a y))
            = idsOf l ++ [(l.books.length : Int) + 1] := idsOf_add l t a y
        have hlen : (applyOp l (Op.add t a y)).books.length
            = l.books.length + 1 := by
          simp [applyOp, Library.add_book, Library.save_books]
        rw [hid, hl, hlen, canonIds_succ]
      | delete i =>
        exact absurd (List.mem_cons_self (Op.delete i) rest) (h i)
      | changeStatus i st =>
        have hid : idsOf (applyOp l (Op.changeStatus i st)) = idsOf l :=
          idsOf_change l i st
        have hlen : (applyOp l (Op.changeStatus i st)).books.length
            = l.books.length := by
          have hmap := congrArg List.length hid
          simpa [idsOf] using hmap
        rw [hid, hl, hlen]
    exact ih hrest (applyOp l op) hstep

/-- C1 counterexample: after add, add, add, delete id 1, add — all
reachable catalog operations — the catalog holds ids `[2, 3, 3]`: two
records share id 3, so the ids are not pairwise distinct and the last
AddRecord assigned an id already present. -/
theorem ids_counterexample :
    idsOf (runOps emptyLib opsDup) = [2, 3, 3]
    ∧ ¬ (idsOf (runOps emptyLib opsDup)).Nodup :=
  ⟨by decide, by decide⟩

/-- C1 amended: along histories built from AddRecord and ChangeStatus
only (no DeleteRecord), the ids are pairwise distinct and the id
`current_count + 1` that the next AddRecord would assign is fresh; once
DeleteRecord is involved, AddRecord can duplicate an existing id. -/
theorem ids_nodup_no_delete (ops : List Op) (h : ∀ i, Op.delete i ∉ ops) :
    (idsOf (runOps emptyLib ops)).Nodup
    ∧ (((runOps emptyLib ops).books.length : Int) + 1)
        ∉ idsOf (runOps emptyLib ops) := by
  have hcanon := runOps_canon ops h emptyLib rfl
  rw [hcanon]
  constructor
  · apply List.Nodup.map
    · intro x y hxy
      have hxy2 : (x : Int) + 1 = (y : Int) + 1 := hxy
      omega
    · exact List.nodup_range _
  · intro hmem
    rw [canonIds] at hmem
    obtain ⟨i, hi, he⟩ := List.mem_map.mp hmem
    rw [List.mem_range] at hi
    omega

/-- C1 witness: a concrete delete-free history of one add and one status
change keeps the ids pairwise distinct. -/
theorem ids_nodup_no_delete_witness :
    (idsOf (runOps emptyLib
        [Op.add "a" "b" 1, Op.changeStatus 1 "выдана"])).Nodup :=
  (ids_nodup_no_delete [Op.add "a" "b" 1, Op.changeStatus 1 "выдана"]
    (by intro i hi; simp at hi)).1
